import Mathlib

/-!
Verification of the TinyDFPlayer firmware control logic
(src/software/sources/tinyDFPlayer_v1.2.ino), as a shallow embedding.

Machine integers are modelled as `Nat`, with an explicit reduction
modulo 2^8 or 2^16 exactly where the C code can wrap around
(the `file++` increment of a `uint8_t`, the `lastpoti - 8` subtraction
of a `uint16_t`, the 16-bit accumulator of `denoiseAnalog`, and the
narrowing conversions to `uint8_t`).  Interaction with the peripherals
(DFPlayer serial commands, OLED contrast changes, EEPROM writes) is
modelled as explicit command and write lists produced by each
operation; the successive readings a loop consumes from the ADC or
from `getBatLevel` are passed in as lists, and an operation that would
run out of readings returns `none`.
-/

namespace TinyDFPlayer

/-- Analog values of the buttons (the #define block of the sketch). -/
def NEXT : Nat := 552

/-- Analog value of the OK button. -/
def OK : Nat := 712

/-- Analog value of the PREV button. -/
def PREV : Nat := 790

/-- OLED contrast level for normal operation. -/
def BRIGHT : Nat := 127

/-- OLED contrast level while the battery is empty. -/
def DIMM : Nat := 50

/-- The global mutable variables of the firmware that the verified
operations read or write.  All `uint8_t` fields hold values below 256
in reachable states; `lastpoti` is the 16-bit tracked potentiometer
value.  `eepFile` and `eepFolder` mirror EEPROM cells 1 and 2 so that
the write-only-if-changed behaviour of `EEPROM.update` is observable. -/
structure PlayerState where
  filecounts : Nat
  foldercounts : Nat
  batlevel : Nat
  volume : Nat
  folder : Nat
  file : Nat
  pause : Bool
  batcounter : Nat
  lastpoti : Nat
  eepFile : Nat
  eepFolder : Nat
  deriving Repr, DecidableEq

/-- Commands sent to the DFPlayer peripheral, plus the OLED contrast
changes, observable during one operation (in order of emission). -/
inductive Cmd where
  | playFolder (folder file : Nat)
  | pauseCmd
  | startCmd
  | setVolume (v : Nat)
  | readFileCounts (folder : Nat)
  | setContrast (level : Nat)
  deriving Repr, DecidableEq

/-- The result of one state-changing operation: the new global state,
the peripheral commands issued, and the EEPROM cells actually written
(address, value), in order. -/
structure StepResult where
  state : PlayerState
  cmds : List Cmd
  eepromWrites : List (Nat × Nat)
  deriving Repr, DecidableEq

/-- First half of `startFolderPlay`: the folder-bound check
`if (folder > foldercounts) { folder = 1; file = 1; filecounts = tinyPlayer.readFileCountsInFolder(folder); }`.
`env` models `tinyPlayer.readFileCountsInFolder`. -/
def sfpFolderStep (env : Nat → Nat) (s : PlayerState) : PlayerState × List Cmd :=
  if s.foldercounts < s.folder then
    ({ s with folder := 1, file := 1, filecounts := env 1 }, [Cmd.readFileCounts 1])
  else (s, [])

/-- Second half of the normalization in `startFolderPlay`:
`if (file > filecounts) file = 1;`. -/
def sfpFileStep (s : PlayerState) : PlayerState :=
  if s.filecounts < s.file then { s with file := 1 } else s

/-- Model of `startFolderPlay()`: normalizes folder and file, issues
`tinyPlayer.playFolder(folder, file)`, clears `pause`, and performs the
`EEPROM.update(1, file); EEPROM.update(2, folder);` writes, each of
which touches the cell only when the value changed. -/
def startFolderPlay (env : Nat → Nat) (s : PlayerState) : StepResult :=
  let t := sfpFileStep (sfpFolderStep env s).1
  { state := { t with pause := false, eepFile := t.file, eepFolder := t.folder }
    cmds := (sfpFolderStep env s).2 ++ [Cmd.playFolder t.folder t.file]
    eepromWrites :=
      (if s.eepFile = t.file then [] else [(1, t.file)]) ++
      (if s.eepFolder = t.folder then [] else [(2, t.folder)]) }

/-- The NEXT-button handler of `loop()`: `file++; startFolderPlay();`
where `file` is a `uint8_t`, so the increment wraps modulo 256. -/
def nextPressed (env : Nat → Nat) (s : PlayerState) : StepResult :=
  startFolderPlay env { s with file := (s.file + 1) % 256 }

/-- The `DFPlayerPlayFinished` handler of `loop()`: identical to the
NEXT-button handler, `file++; startFolderPlay();`. -/
def trackFinished (env : Nat → Nat) (s : PlayerState) : StepResult :=
  startFolderPlay env { s with file := (s.file + 1) % 256 }

/-- The potentiometer hysteresis of `loop()`:
`if ( (getpoti < (lastpoti - 8)) || (getpoti > (lastpoti + 8)) ) lastpoti = getpoti;`.
Both operands are 16-bit unsigned, so `lastpoti - 8` is computed modulo
2^16 (it wraps around for `lastpoti < 8`). -/
def potiTrack (lastpoti getpoti : Nat) : Nat :=
  if getpoti < (lastpoti + 65528) % 65536 ∨ (lastpoti + 8) % 65536 < getpoti then
    getpoti
  else lastpoti

/-- The volume derived from the tracked potentiometer value:
`uint8_t getvol = lastpoti / 34;` (narrowed to 8 bit). -/
def getvolOf (lastpoti : Nat) : Nat :=
  (lastpoti / 34) % 256

/-- Button events derived from the button-rail sample. -/
inductive ButtonEvent where
  | Previous
  | Next
  | OkToggle
  | None
  deriving Repr, DecidableEq

/-- The button dispatch of `loop()` as a classification function: the
sample is processed only when below 1000, and each of the three windows
is tested with the strict comparisons
`(buttons < (X + 20)) && (buttons > (X - 20))`.  The windows are
pairwise disjoint, so the three sequential `if`s of the source fire at
most once and are equivalent to this chain. -/
def classifyButtons (sample : Nat) : ButtonEvent :=
  if sample < 1000 then
    if PREV - 20 < sample ∧ sample < PREV + 20 then ButtonEvent.Previous
    else if NEXT - 20 < sample ∧ sample < NEXT + 20 then ButtonEvent.Next
    else if OK - 20 < sample ∧ sample < OK + 20 then ButtonEvent.OkToggle
    else ButtonEvent.None
  else ButtonEvent.None

/-- Arduino `constrain(amt, low, high)`. -/
def constrainNat (x lo hi : Nat) : Nat :=
  if x < lo then lo else if hi < x then hi else x

/-- Model of `getBatLevel()` as a function of the raw ADC count of the 1.1V
reference: `vcc = 1125300L / vcc; vcc = constrain(vcc, 3200, 4100);
uint8_t result = (vcc - 3200) / 9;` (the final narrowing to `uint8_t`
is the modulo 256). -/
def getBatLevel (adc : Nat) : Nat :=
  (constrainNat (1125300 / adc) 3200 4100 - 3200) / 9 % 256

/-- The `while(getBatLevel() < 10) sleep();` loop of `checkBatLevel`,
consuming percentage readings until one is at least 10; returns the
unconsumed readings, or `none` if the supply of readings runs out. -/
def waitRecharge : List Nat → Option (List Nat)
  | [] => Option.none
  | r :: rest => if r < 10 then waitRecharge rest else Option.some rest

/-- Model of `checkBatLevel()`, as a function of the successive `getBatLevel()`
percentage readings it consumes.  On an initial reading of 0 it dims
the OLED, issues a pause command unless already paused, waits for a
reading of at least 10, restores the contrast, takes one more reading
as the new `batlevel`, and issues a start command unless paused.  In
every case it ends by resetting `batcounter = 600` (the `updateOLED()`
call changes no modelled state). -/
def checkBatLevel (reads : List Nat) (s : PlayerState) : Option StepResult :=
  match reads with
  | [] => Option.none
  | r0 :: rest =>
    if r0 = 0 then
      match waitRecharge rest with
      | Option.none => Option.none
      | Option.some rest2 =>
        match rest2 with
        | [] => Option.none
        | rb :: _ =>
          Option.some
            { state := { s with batlevel := rb, batcounter := 600 }
              cmds :=
                [Cmd.setContrast DIMM] ++
                (if s.pause then [] else [Cmd.pauseCmd]) ++
                [Cmd.setContrast BRIGHT] ++
                (if s.pause then [] else [Cmd.startCmd])
              eepromWrites := [] }
    else
      Option.some
        { state := { s with batlevel := r0, batcounter := 600 }
          cmds := []
          eepromWrites := [] }

/-- Model of `denoiseAnalog`: eight ADC readings are accumulated in a 16-bit
`result` (hence the modulo 2^16) and the sum is shifted right by 3. -/
def denoiseAnalog (reads : List Nat) : Nat :=
  (reads.foldl (fun acc r => (acc + r) % 65536) 0) >>> 3

end TinyDFPlayer

namespace TinyDFPlayer

/-- Environment for the C1 counterexample: every folder reports 255 files. -/
def c1ExEnv : Nat → Nat := fun _ => 255

/-- State for the C1 counterexample: playing file 255 of 255 in folder 1 of 1
(reachable with 255 files in the folder, or restored from EEPROM). -/
def c1ExState : PlayerState :=
  { filecounts := 255, foldercounts := 1, batlevel := 50, volume := 20,
    folder := 1, file := 255, pause := false, batcounter := 600,
    lastpoti := 0, eepFile := 255, eepFolder := 1 }

/-- C1 counterexample: from file 255 of 255, a NEXT press wraps `file` to 0;
`startFolderPlay` does not normalize 0 (it only resets values above the
bound), so the session leaves `startFolderPlay` with `file = 0 < 1` and the
play command is issued for (1, 0). -/
theorem c1_counterexample :
    (nextPressed c1ExEnv c1ExState).state.file = 0 ∧
    (nextPressed c1ExEnv c1ExState).cmds = [Cmd.playFolder 1 0] ∧
    ¬ 1 ≤ (nextPressed c1ExEnv c1ExState).state.file := by
  decide

/-- C1 (amended): provided the folder count, the current file count and the
file count reported for folder 1 are all at least 1, every call to
`startFolderPlay` ends with `folder ≤ foldercounts` and
`file ≤ filecounts`, values above a bound having been reset to 1; the lower
bounds are only preserved, not restored: `1 ≤ folder` (resp. `1 ≤ file`) is
guaranteed only when it held on entry, a value of 0 not being normalized.  The play command, issued last, uses the normalized
coordinates. -/
theorem c1_amended_bounds (env : Nat → Nat) (s : PlayerState)
    (hfc : 1 ≤ s.foldercounts) (hfl : 1 ≤ s.filecounts) (he : 1 ≤ env 1) :
    (startFolderPlay env s).state.folder ≤ (startFolderPlay env s).state.foldercounts ∧
    (startFolderPlay env s).state.file ≤ (startFolderPlay env s).state.filecounts ∧
    (1 ≤ s.folder → 1 ≤ (startFolderPlay env s).state.folder) ∧
    (1 ≤ s.file → 1 ≤ (startFolderPlay env s).state.file) ∧
    (startFolderPlay env s).cmds.getLast? =
      Option.some (Cmd.playFolder (startFolderPlay env s).state.folder
        (startFolderPlay env s).state.file) := by
  unfold startFolderPlay sfpFolderStep sfpFileStep
  split_ifs <;> simp_all


/-- Witness for C1 (amended) at a concrete input. -/
theorem c1_amended_bounds_witness :
    1 ≤ c1ExState.foldercounts ∧ 1 ≤ c1ExState.filecounts ∧ 1 ≤ c1ExEnv 1 ∧
    ((startFolderPlay c1ExEnv c1ExState).state.folder ≤
        (startFolderPlay c1ExEnv c1ExState).state.foldercounts ∧
      (startFolderPlay c1ExEnv c1ExState).state.file ≤
        (startFolderPlay c1ExEnv c1ExState).state.filecounts ∧
      (1 ≤ c1ExState.folder → 1 ≤ (startFolderPlay c1ExEnv c1ExState).state.folder) ∧
      (1 ≤ c1ExState.file → 1 ≤ (startFolderPlay c1ExEnv c1ExState).state.file) ∧
      (startFolderPlay c1ExEnv c1ExState).cmds.getLast? =
        Option.some (Cmd.playFolder (startFolderPlay c1ExEnv c1ExState).state.folder
          (startFolderPlay c1ExEnv c1ExState).state.file)) :=
  ⟨by decide, by decide, by decide,
    c1_amended_bounds c1ExEnv c1ExState (by decide) (by decide) (by decide)⟩

/-- C2: the two normalization branches of `startFolderPlay`.  If the folder
exceeds the folder count, folder and file are reset to 1 and the file count
is refreshed for folder 1; otherwise, if the file exceeds the file count of
the current folder, the file is reset to 1 and the folder is preserved. -/
theorem c2_normalization (env : Nat → Nat) (s : PlayerState) :
    (s.foldercounts < s.folder →
      (startFolderPlay env s).state.folder = 1 ∧
      (startFolderPlay env s).state.file = 1 ∧
      (startFolderPlay env s).state.filecounts = env 1 ∧
      (startFolderPlay env s).cmds =
        [Cmd.readFileCounts 1, Cmd.playFolder 1 1]) ∧
    (s.folder ≤ s.foldercounts → s.filecounts < s.file →
      (startFolderPlay env s).state.file = 1 ∧
      (startFolderPlay env s).state.folder = s.folder ∧
      (startFolderPlay env s).state.filecounts = s.filecounts) := by
  unfold startFolderPlay sfpFolderStep sfpFileStep
  split_ifs <;> simp_all

/-- Environment for the C2 witness: every folder reports 4 files. -/
def c2ExEnv : Nat → Nat := fun _ => 4

/-- C2 witness state for the folder-overflow branch. -/
def c2ExStateA : PlayerState :=
  { filecounts := 12, foldercounts := 3, batlevel := 50, volume := 20,
    folder := 7, file := 9, pause := false, batcounter := 600,
    lastpoti := 0, eepFile := 9, eepFolder := 7 }

/-- C2 witness state for the file-overflow branch. -/
def c2ExStateB : PlayerState :=
  { filecounts := 12, foldercounts := 3, batlevel := 50, volume := 20,
    folder := 2, file := 13, pause := false, batcounter := 600,
    lastpoti := 0, eepFile := 13, eepFolder := 2 }

/-- Witness for C2, exercising both branches at concrete inputs. -/
theorem c2_normalization_witness :
    (c2ExStateA.foldercounts < c2ExStateA.folder ∧
      ((startFolderPlay c2ExEnv c2ExStateA).state.folder = 1 ∧
        (startFolderPlay c2ExEnv c2ExStateA).state.file = 1 ∧
        (startFolderPlay c2ExEnv c2ExStateA).state.filecounts = c2ExEnv 1 ∧
        (startFolderPlay c2ExEnv c2ExStateA).cmds =
          [Cmd.readFileCounts 1, Cmd.playFolder 1 1])) ∧
    (c2ExStateB.folder ≤ c2ExStateB.foldercounts ∧ c2ExStateB.filecounts < c2ExStateB.file ∧
      ((startFolderPlay c2ExEnv c2ExStateB).state.file = 1 ∧
        (startFolderPlay c2ExEnv c2ExStateB).state.folder = c2ExStateB.folder ∧
        (startFolderPlay c2ExEnv c2ExStateB).state.filecounts = c2ExStateB.filecounts)) :=
  ⟨⟨by decide, (c2_normalization c2ExEnv c2ExStateA).1 (by decide)⟩,
    ⟨by decide, by decide, (c2_normalization c2ExEnv c2ExStateB).2 (by decide) (by decide)⟩⟩


/-- C3 counterexample: with tracked value T = 5 and sample S = 0 the
difference is 5 and the claim requires the tracked value to stay 5, but
`lastpoti - 8` wraps around in 16-bit arithmetic, the update condition
holds, and the tracked value is replaced by 0. -/
theorem c3_counterexample :
    max 5 0 - min 5 0 ≤ 8 ∧ potiTrack 5 0 = 0 ∧ potiTrack 5 0 ≠ 5 := by
  decide

/-- C3 (amended): for tracked values T with 8 ≤ T ≤ 1023 the tracked value
is replaced by the sample S iff they differ by more than 8; for T < 8 the
16-bit wraparound of `lastpoti - 8` makes the condition always true, so
every sample replaces the tracked value.  The volume presented to the
decoder is floor(tracked / 34), which lies in [0, 30] on the whole 0..1023
domain. -/
theorem c3_amended_hysteresis (T S : Nat) (hT : T ≤ 1023) (hS : S ≤ 1023) :
    (8 ≤ T → potiTrack T S = if T + 8 < S ∨ S + 8 < T then S else T) ∧
    (T < 8 → potiTrack T S = S) ∧
    getvolOf (potiTrack T S) = potiTrack T S / 34 ∧
    potiTrack T S / 34 ≤ 30 := by
  unfold potiTrack getvolOf
  refine ⟨?_, ?_, ?_, ?_⟩ <;> intros <;> split_ifs <;> omega

/-- Witness for C3 (amended) at T = 100, S = 200. -/
theorem c3_amended_hysteresis_witness :
    (100 : Nat) ≤ 1023 ∧ (200 : Nat) ≤ 1023 ∧
    ((8 ≤ 100 → potiTrack 100 200 = if 100 + 8 < 200 ∨ 200 + 8 < 100 then 200 else 100) ∧
      ((100 : Nat) < 8 → potiTrack 100 200 = 200) ∧
      getvolOf (potiTrack 100 200) = potiTrack 100 200 / 34 ∧
      potiTrack 100 200 / 34 ≤ 30) :=
  ⟨by decide, by decide, c3_amended_hysteresis 100 200 (by decide) (by decide)⟩

/-- C4 counterexample: the comparisons are strict, so the boundary samples
770, 810, 692, 732, 532 and 572, which the claim places inside the closed
windows, are all classified as `None`. -/
theorem c4_counterexample :
    classifyButtons 770 = ButtonEvent.None ∧ classifyButtons 810 = ButtonEvent.None ∧
    classifyButtons 692 = ButtonEvent.None ∧ classifyButtons 732 = ButtonEvent.None ∧
    classifyButtons 532 = ButtonEvent.None ∧ classifyButtons 572 = ButtonEvent.None := by
  decide

/-- C4 (amended): button classification is a pure function of the single
raw sample with pairwise disjoint open windows: `Previous` exactly on
[771, 809], `OkToggle` exactly on [693, 731], `Next` exactly on [533, 571],
and `None` everywhere else. -/
theorem c4_amended_windows (sample : Nat) :
    (classifyButtons sample = ButtonEvent.Previous ↔ 771 ≤ sample ∧ sample ≤ 809) ∧
    (classifyButtons sample = ButtonEvent.OkToggle ↔ 693 ≤ sample ∧ sample ≤ 731) ∧
    (classifyButtons sample = ButtonEvent.Next ↔ 533 ≤ sample ∧ sample ≤ 571) ∧
    (classifyButtons sample = ButtonEvent.None ↔
      ¬((771 ≤ sample ∧ sample ≤ 809) ∨ (693 ≤ sample ∧ sample ≤ 731) ∨
        (533 ≤ sample ∧ sample ≤ 571))) := by
  unfold classifyButtons PREV NEXT OK
  split_ifs <;> simp_all <;> omega

/-- C5: for every raw reference count R of at least 1 (a reading of 0 would
be a division by zero in the source and cannot arise from the bandgap
measurement), `getBatLevel` computes 1125300 / R by integer division,
clamps the result to [3200, 4100], and returns (clamped - 3200) / 9; the
percentage is 0 when the clamped value is 3200, 100 when it is 4100, and
always lies in [0, 100]. -/
theorem c5_batlevel (R : Nat) (hR : 1 ≤ R) :
    getBatLevel R ≤ 100 ∧
    getBatLevel R = (constrainNat (1125300 / R) 3200 4100 - 3200) / 9 ∧
    3200 ≤ constrainNat (1125300 / R) 3200 4100 ∧
    constrainNat (1125300 / R) 3200 4100 ≤ 4100 ∧
    (constrainNat (1125300 / R) 3200 4100 = 3200 → getBatLevel R = 0) ∧
    (constrainNat (1125300 / R) 3200 4100 = 4100 → getBatLevel R = 100) := by
  unfold getBatLevel constrainNat
  split_ifs <;> omega

/-- Witness for C5 at R = 352 (clamped to 3200mV, 0%) combined with the
theorem instance at R = 274 (clamped to 4100mV, 100%). -/
theorem c5_batlevel_witness :
    (1 : Nat) ≤ 352 ∧
    (getBatLevel 352 ≤ 100 ∧
      getBatLevel 352 = (constrainNat (1125300 / 352) 3200 4100 - 3200) / 9 ∧
      3200 ≤ constrainNat (1125300 / 352) 3200 4100 ∧
      constrainNat (1125300 / 352) 3200 4100 ≤ 4100 ∧
      (constrainNat (1125300 / 352) 3200 4100 = 3200 → getBatLevel 352 = 0) ∧
      (constrainNat (1125300 / 352) 3200 4100 = 4100 → getBatLevel 352 = 100)) :=
  ⟨by decide, c5_batlevel 352 (by decide)⟩


/-- Helper: the recharge wait consumes exactly the leading readings below
10 and the first reading of at least 10. -/
theorem waitRecharge_append (pre : List Nat) (r : Nat) (rest : List Nat)
    (hpre : ∀ x ∈ pre, x < 10) (hr : 10 ≤ r) :
    waitRecharge (pre ++ r :: rest) = Option.some rest := by
  induction pre with
  | nil =>
    simp only [List.nil_append, waitRecharge]
    split_ifs with h
    · omega
    · rfl
  | cons a t ih =>
    simp only [List.cons_append, waitRecharge]
    split_ifs with h
    · exact ih fun x hx => hpre x (List.mem_cons_of_mem a hx)
    · exact absurd (hpre a (List.mem_cons_self a t)) h

/-- C6: if `checkBatLevel` reads 0 while the session is not user-paused, it
dims the display, issues a pause command, consumes readings through the
sleep cycle until one reaches 10, restores normal contrast, stores the next
reading as the new battery level, and issues a start (resume) command — all
without touching folder, file, volume or the paused flag.  If the session
was already user-paused, the same lockout runs but neither the pause nor
the start command is issued. -/
theorem c6_lockout (s : PlayerState) (pre : List Nat) (rexit rb : Nat)
    (tail : List Nat) (hpre : ∀ x ∈ pre, x < 10) (hexit : 10 ≤ rexit) :
    (s.pause = false →
      checkBatLevel (0 :: (pre ++ rexit :: rb :: tail)) s =
        Option.some
          { state := { s with batlevel := rb, batcounter := 600 }
            cmds := [Cmd.setContrast DIMM, Cmd.pauseCmd,
                     Cmd.setContrast BRIGHT, Cmd.startCmd]
            eepromWrites := [] }) ∧
    (s.pause = true →
      checkBatLevel (0 :: (pre ++ rexit :: rb :: tail)) s =
        Option.some
          { state := { s with batlevel := rb, batcounter := 600 }
            cmds := [Cmd.setContrast DIMM, Cmd.setContrast BRIGHT]
            eepromWrites := [] }) := by
  have hw := waitRecharge_append pre rexit (rb :: tail) hpre hexit
  constructor <;> intro hps <;> simp [checkBatLevel, hw, hps]

/-- State for the C6 witness: playing (not paused). -/
def c6ExState : PlayerState :=
  { filecounts := 3, foldercounts := 2, batlevel := 1, volume := 20,
    folder := 2, file := 3, pause := false, batcounter := 1,
    lastpoti := 680, eepFile := 3, eepFolder := 2 }

/-- Witness for C6: a concrete lockout that reads 0, waits through the
readings 0 and 5, recovers at 10, and stores 42 as the new level. -/
theorem c6_lockout_witness :
    (∀ x ∈ [0, 5], x < 10) ∧ (10 : Nat) ≤ 10 ∧
    checkBatLevel (0 :: ([0, 5] ++ 10 :: 42 :: [])) c6ExState =
      Option.some
        { state := { c6ExState with batlevel := 42, batcounter := 600 }
          cmds := [Cmd.setContrast DIMM, Cmd.pauseCmd,
                   Cmd.setContrast BRIGHT, Cmd.startCmd]
          eepromWrites := [] } :=
  ⟨by decide, by decide,
    (c6_lockout c6ExState [0, 5] 10 42 [] (by decide) (by decide)).1 rfl⟩

/-- Environment for the C7 counterexample: every folder reports 3 files. -/
def c7ExEnv : Nat → Nat := fun _ => 3

/-- State for the C7 counterexample: the decoder reported 0 folders. -/
def c7ExState : PlayerState :=
  { filecounts := 3, foldercounts := 0, batlevel := 50, volume := 20,
    folder := 1, file := 1, pause := false, batcounter := 600,
    lastpoti := 0, eepFile := 1, eepFolder := 1 }

/-- C7 counterexample: with a folder count of 0, the second of two
successive `startFolderPlay` calls (folder and file unchanged in between)
again takes the folder-reset branch and re-issues the
`readFileCountsInFolder` query — a peripheral command beyond the second
play command. -/
theorem c7_counterexample :
    (startFolderPlay c7ExEnv (startFolderPlay c7ExEnv c7ExState).state).cmds =
      [Cmd.readFileCounts 1, Cmd.playFolder 1 1] := by
  decide

/-- C7 (amended): provided the folder count is at least 1, calling
`startFolderPlay` twice in succession with folder and file unchanged
between the calls leaves the persisted (file, folder) pair unchanged, the
second call performs no EEPROM write, and the second call issues exactly
one peripheral command, the play command. -/
theorem c7_amended_idempotence (env : Nat → Nat) (s : PlayerState)
    (h : 1 ≤ s.foldercounts) :
    (startFolderPlay env (startFolderPlay env s).state).state.file =
      (startFolderPlay env s).state.file ∧
    (startFolderPlay env (startFolderPlay env s).state).state.folder =
      (startFolderPlay env s).state.folder ∧
    (startFolderPlay env (startFolderPlay env s).state).state.eepFile =
      (startFolderPlay env s).state.eepFile ∧
    (startFolderPlay env (startFolderPlay env s).state).state.eepFolder =
      (startFolderPlay env s).state.eepFolder ∧
    (startFolderPlay env (startFolderPlay env s).state).eepromWrites = [] ∧
    (startFolderPlay env (startFolderPlay env s).state).cmds =
      [Cmd.playFolder (startFolderPlay env s).state.folder
        (startFolderPlay env s).state.file] := by
  unfold startFolderPlay sfpFolderStep sfpFileStep
  split_ifs <;> simp_all

/-- Witness for C7 (amended) at a concrete input with one folder. -/
def c7ExStateB : PlayerState :=
  { filecounts := 3, foldercounts := 1, batlevel := 50, volume := 20,
    folder := 1, file := 2, pause := false, batcounter := 600,
    lastpoti := 0, eepFile := 2, eepFolder := 1 }

/-- Witness for C7 (amended). -/
theorem c7_amended_idempotence_witness :
    1 ≤ c7ExStateB.foldercounts ∧
    ((startFolderPlay c7ExEnv (startFolderPlay c7ExEnv c7ExStateB).state).state.file =
        (startFolderPlay c7ExEnv c7ExStateB).state.file ∧
      (startFolderPlay c7ExEnv (startFolderPlay c7ExEnv c7ExStateB).state).state.folder =
        (startFolderPlay c7ExEnv c7ExStateB).state.folder ∧
      (startFolderPlay c7ExEnv (startFolderPlay c7ExEnv c7ExStateB).state).state.eepFile =
        (startFolderPlay c7ExEnv c7ExStateB).state.eepFile ∧
      (startFolderPlay c7ExEnv (startFolderPlay c7ExEnv c7ExStateB).state).state.eepFolder =
        (startFolderPlay c7ExEnv c7ExStateB).state.eepFolder ∧
      (startFolderPlay c7ExEnv (startFolderPlay c7ExEnv c7ExStateB).state).eepromWrites = [] ∧
      (startFolderPlay c7ExEnv (startFolderPlay c7ExEnv c7ExStateB).state).cmds =
        [Cmd.playFolder (startFolderPlay c7ExEnv c7ExStateB).state.folder
          (startFolderPlay c7ExEnv c7ExStateB).state.file]) :=
  ⟨by decide, c7_amended_idempotence c7ExEnv c7ExStateB (by decide)⟩


/-- C8: `file` is an 8-bit counter.  When `file = 255` and the NEXT-button
handler or the track-finished handler increments it, `file` wraps modulo
256 to 0; the normalization in `startFolderPlay` resets the file only when
it exceeds the file count, so 0 is left in place (the folder being within
bounds) and the play command goes out for (folder, 0). -/
theorem c8_file_wraparound (env : Nat → Nat) (s : PlayerState)
    (h255 : s.file = 255) (hf : s.folder ≤ s.foldercounts) :
    (s.file + 1) % 256 = 0 ∧
    (nextPressed env s).state.file = 0 ∧
    (nextPressed env s).cmds = [Cmd.playFolder s.folder 0] ∧
    (trackFinished env s).state.file = 0 ∧
    (trackFinished env s).cmds = [Cmd.playFolder s.folder 0] := by
  unfold nextPressed trackFinished startFolderPlay sfpFolderStep sfpFileStep
  simp only [h255]
  split_ifs <;> simp_all <;> omega

/-- Environment for the C8 witness: every folder reports 255 files. -/
def c8ExEnv : Nat → Nat := fun _ => 255

/-- State for the C8 witness: playing file 255 of 255 in folder 1 of 1. -/
def c8ExState : PlayerState :=
  { filecounts := 255, foldercounts := 1, batlevel := 50, volume := 20,
    folder := 1, file := 255, pause := false, batcounter := 600,
    lastpoti := 0, eepFile := 255, eepFolder := 1 }

/-- Witness for C8 at the concrete wraparound state. -/
theorem c8_file_wraparound_witness :
    c8ExState.file = 255 ∧ c8ExState.folder ≤ c8ExState.foldercounts ∧
    ((c8ExState.file + 1) % 256 = 0 ∧
      (nextPressed c8ExEnv c8ExState).state.file = 0 ∧
      (nextPressed c8ExEnv c8ExState).cmds = [Cmd.playFolder c8ExState.folder 0] ∧
      (trackFinished c8ExEnv c8ExState).state.file = 0 ∧
      (trackFinished c8ExEnv c8ExState).cmds = [Cmd.playFolder c8ExState.folder 0]) :=
  ⟨by decide, by decide, c8_file_wraparound c8ExEnv c8ExState rfl (by decide)⟩

/-- C9: `checkBatLevel` never writes the paused flag and never changes
folder, file, volume or the tracked potentiometer value, and it writes no
EEPROM cell; the pause command and the start (resume) command each appear
in its output only when the session was not user-paused on entry. -/
theorem c9_frame (reads : List Nat) (s : PlayerState) (res : StepResult)
    (h : checkBatLevel reads s = Option.some res) :
    res.state.pause = s.pause ∧ res.state.folder = s.folder ∧
    res.state.file = s.file ∧ res.state.volume = s.volume ∧
    res.state.lastpoti = s.lastpoti ∧ res.eepromWrites = [] ∧
    (Cmd.pauseCmd ∈ res.cmds → s.pause = false) ∧
    (Cmd.startCmd ∈ res.cmds → s.pause = false) := by
  rcases reads with _ | ⟨r0, rest⟩
  · simp [checkBatLevel] at h
  · by_cases hr : r0 = 0
    · rcases hw : waitRecharge rest with _ | rest2
      · simp [checkBatLevel, hr, hw] at h
      · rcases rest2 with _ | ⟨rb, rest3⟩
        · simp [checkBatLevel, hr, hw] at h
        · simp only [checkBatLevel, hr, hw, if_true, eq_self_iff_true,
            Option.some.injEq] at h
          subst h
          by_cases hp : s.pause <;> simp [hp]
    · simp only [checkBatLevel, if_neg hr, Option.some.injEq] at h
      subst h
      by_cases hp : s.pause <;> simp [hp]

/-- State for the C9 witness. -/
def c9ExState : PlayerState :=
  { filecounts := 3, foldercounts := 2, batlevel := 1, volume := 20,
    folder := 2, file := 3, pause := true, batcounter := 1,
    lastpoti := 680, eepFile := 3, eepFolder := 2 }

/-- Result of `checkBatLevel` on a healthy reading, for the C9 witness. -/
def c9ExRes : StepResult :=
  { state := { c9ExState with batlevel := 55, batcounter := 600 }
    cmds := []
    eepromWrites := [] }

/-- Witness for C9 at a concrete reading. -/
theorem c9_frame_witness :
    checkBatLevel [55] c9ExState = Option.some c9ExRes ∧
    (c9ExRes.state.pause = c9ExState.pause ∧ c9ExRes.state.folder = c9ExState.folder ∧
      c9ExRes.state.file = c9ExState.file ∧ c9ExRes.state.volume = c9ExState.volume ∧
      c9ExRes.state.lastpoti = c9ExState.lastpoti ∧ c9ExRes.eepromWrites = [] ∧
      (Cmd.pauseCmd ∈ c9ExRes.cmds → c9ExState.pause = false) ∧
      (Cmd.startCmd ∈ c9ExRes.cmds → c9ExState.pause = false)) :=
  ⟨by decide, c9_frame [55] c9ExState c9ExRes (by decide)⟩

/-- Helper: while the running 16-bit sum stays below 2^16, the accumulating
fold of `denoiseAnalog` computes the plain sum. -/
theorem denoise_foldl (l : List Nat) (acc : Nat) (h : acc + l.sum < 65536) :
    l.foldl (fun a r => (a + r) % 65536) acc = acc + l.sum := by
  induction l generalizing acc with
  | nil => simp
  | cons a t ih =>
    simp only [List.foldl_cons, List.sum_cons] at h ⊢
    rw [Nat.mod_eq_of_lt (by omega), ih _ (by omega)]
    omega

/-- C10: for eight ADC readings of at most 1023 each, the 16-bit
accumulator of `denoiseAnalog` sums to at most 8184 and never overflows,
and the right-shift by 3 returns exactly the floor of the arithmetic mean
(the sum divided by 8). -/
theorem c10_denoise (reads : List Nat) (hlen : reads.length = 8)
    (hb : ∀ r ∈ reads, r ≤ 1023) :
    reads.sum ≤ 8184 ∧ denoiseAnalog reads = reads.sum / 8 := by
  have hsum : reads.sum ≤ 8184 := by
    have := List.sum_le_card_nsmul reads 1023 hb
    rw [hlen] at this
    simpa using this
  refine ⟨hsum, ?_⟩
  unfold denoiseAnalog
  rw [denoise_foldl reads 0 (by omega), Nat.shiftRight_eq_div_pow]
  norm_num

/-- Witness for C10 on eight maximal readings. -/
theorem c10_denoise_witness :
    ([1023, 1023, 1023, 1023, 1023, 1023, 1023, 1023] : List Nat).length = 8 ∧
    (∀ r ∈ ([1023, 1023, 1023, 1023, 1023, 1023, 1023, 1023] : List Nat), r ≤ 1023) ∧
    (([1023, 1023, 1023, 1023, 1023, 1023, 1023, 1023] : List Nat).sum ≤ 8184 ∧
      denoiseAnalog [1023, 1023, 1023, 1023, 1023, 1023, 1023, 1023] =
        ([1023, 1023, 1023, 1023, 1023, 1023, 1023, 1023] : List Nat).sum / 8) :=
  ⟨by decide, by decide, c10_denoise _ (by decide) (by decide)⟩

end TinyDFPlayer
